import Mathlib

/-!
Shallow embedding of the MSK best-practices module
(`awslabs/aws_msk_mcp_server/resources/best_practices.py`).

The module consists of a static table of broker instance specifications
(`INSTANCE_SPECS`), a set of threshold constants, a pure lookup function
`get_cluster_best_practices` deriving cluster-level recommendations, and a
catalog resource (`msk_best_practices`) that partitions the table keys into
standard / express categories.

Modelling decisions:
- Python `int` broker counts become `Int` (they may be zero or negative; the
  source enforces no lower bound).
- Python `float` throughput values are decimal literals with one fractional
  digit on which the source performs no arithmetic; they are modelled as `Rat`,
  and the f-string rendering of such a value is modelled by `fmtTenths`, which
  prints with exactly one fractional digit (matching Python `str` on these
  one-decimal values).
- The Python dict returned on success becomes the structure
  `ClusterBestPractices`, one field per dict key, with the same value shapes
  (strings where the source builds f-strings, integers where it stores ints).
- The error dict `{'Error': msg}` versus the success dict becomes
  `Except String ClusterBestPractices`.
- The Python dict `INSTANCE_SPECS` becomes an association list in source
  order; dict membership / indexing becomes `List.lookup`.
-/

/-- Threshold constant from the source: keep CPU under 60% for headroom. -/
def RECOMMENDED_CPU_UTILIZATION_PERCENT : Int := 60

/-- Threshold constant from the source: never exceed 70% CPU. -/
def MAX_CPU_UTILIZATION_PERCENT : Int := 70

/-- Threshold constant from the source: disk usage warning at 85%. -/
def STORAGE_UTILIZATION_WARNING_PERCENT : Int := 85

/-- Threshold constant from the source: disk usage critical at 90%. -/
def STORAGE_UTILIZATION_CRITICAL_PERCENT : Int := 90

/-- Threshold constant from the source: typical production replication factor. -/
def RECOMMENDED_REPLICATION_FACTOR : Int := 3

/-- Threshold constant from the source: minimum in-sync replicas for RF=3. -/
def RECOMMENDED_MIN_INSYNC_REPLICAS : Int := 2

/-- Threshold constant from the source: under-replicated partitions tolerance. -/
def UNDER_REPLICATED_PARTITIONS_TOLERANCE : Int := 0

/-- Threshold constant from the source: leader imbalance tolerance percent. -/
def LEADER_IMBALANCE_TOLERANCE_PERCENT : Int := 10

/-- One row of the static `INSTANCE_SPECS` table: the per-broker
specification of a supported instance type. -/
structure InstanceSpec where
  vCPU : Nat
  memoryGB : Nat
  networkBandwidthGbps : Rat
  ingressRecommendedMBps : Rat
  ingressMaxMBps : Rat
  egressRecommendedMBps : Rat
  egressMaxMBps : Rat
  partitionsPerBrokerRecommended : Nat
  partitionsPerBrokerMax : Nat
  deriving DecidableEq, Repr

/-- The static `INSTANCE_SPECS` table, as an association list in the
source's insertion order. Field order within each row follows the source:
vCPU, Memory (GB), Network Bandwidth (Gbps), Ingress Recommended (MBps),
Ingress Max (MBps), Egress Recommended (MBps), Egress Max (MBps),
Partitions per Broker Recommended, Partitions per Broker Max. -/
def INSTANCE_SPECS : List (String × InstanceSpec) :=
  [ ("kafka.t3.small", ⟨2, 2, 5.0, 4.8, 7.2, 9.6, 18.0, 300, 300⟩)
  , ("kafka.m5.large", ⟨2, 8, 10.0, 4.8, 7.2, 9.6, 18.0, 1000, 1500⟩)
  , ("kafka.m5.xlarge", ⟨4, 16, 10.0, 9.6, 14.4, 19.2, 36.0, 1000, 1500⟩)
  , ("kafka.m5.2xlarge", ⟨8, 32, 10.0, 19.2, 28.8, 38.4, 72.0, 2000, 3000⟩)
  , ("kafka.m5.4xlarge", ⟨16, 64, 10.0, 38.4, 57.6, 76.8, 144.0, 4000, 6000⟩)
  , ("kafka.m5.8xlarge", ⟨32, 128, 10.0, 76.9, 115.4, 153.8, 288.5, 4000, 6000⟩)
  , ("kafka.m5.12xlarge", ⟨48, 192, 12.0, 115.4, 173.1, 230.8, 432.7, 4000, 6000⟩)
  , ("kafka.m5.16xlarge", ⟨64, 256, 20.0, 153.8, 230.7, 307.7, 576.9, 4000, 6000⟩)
  , ("kafka.m5.24xlarge", ⟨96, 384, 25.0, 153.8, 230.7, 307.7, 576.9, 4000, 6000⟩)
  , ("kafka.m7g.large", ⟨2, 8, 12.5, 4.8, 7.2, 9.6, 18.0, 1000, 1500⟩)
  , ("kafka.m7g.xlarge", ⟨4, 16, 15.0, 9.6, 14.4, 19.2, 36.0, 1000, 1500⟩)
  , ("kafka.m7g.2xlarge", ⟨8, 32, 15.0, 19.2, 28.8, 38.4, 72.0, 2000, 3000⟩)
  , ("kafka.m7g.4xlarge", ⟨16, 64, 15.0, 38.4, 57.6, 76.8, 144.0, 4000, 6000⟩)
  , ("kafka.m7g.8xlarge", ⟨32, 128, 15.0, 76.9, 115.4, 153.8, 288.5, 4000, 6000⟩)
  , ("kafka.m7g.12xlarge", ⟨48, 192, 22.5, 115.4, 173.1, 230.8, 432.7, 4000, 6000⟩)
  , ("kafka.m7g.16xlarge", ⟨64, 256, 30.0, 153.8, 230.7, 307.7, 576.9, 4000, 6000⟩)
  , ("express.m7g.large", ⟨2, 8, 12.5, 15.6, 23.4, 31.2, 58.5, 1000, 1500⟩)
  , ("express.m7g.xlarge", ⟨4, 16, 15.0, 31.2, 46.8, 62.5, 117.0, 1000, 1500⟩)
  , ("express.m7g.2xlarge", ⟨8, 32, 15.0, 62.5, 93.7, 125.0, 234.2, 2000, 3000⟩)
  , ("express.m7g.4xlarge", ⟨16, 64, 15.0, 124.9, 187.5, 249.8, 468.7, 4000, 6000⟩)
  , ("express.m7g.8xlarge", ⟨32, 128, 15.0, 250.0, 375.0, 500.0, 937.5, 4000, 6000⟩)
  , ("express.m7g.12xlarge", ⟨48, 192, 22.5, 375.0, 562.5, 750.0, 1406.2, 4000, 6000⟩)
  , ("express.m7g.16xlarge", ⟨64, 256, 30.0, 500.0, 750.0, 1000.0, 1875.0, 4000, 6000⟩)
  ]

/-- The key list of the table, in source order (Python `INSTANCE_SPECS.keys()`). -/
def INSTANCE_SPECS_keys : List String := INSTANCE_SPECS.map Prod.fst

/-- Python `s.startswith(p)`: `p` is a character-wise prefix of `s`. -/
def strStartsWith (s p : String) : Bool := p.data.isPrefixOf s.data

/-- Python `f'\x7bq\x7d'` for the one-decimal float values of the table:
renders with exactly one fractional digit (e.g. `5.0` as `"5.0"`,
`1406.2` as `"1406.2"`), as Python `str` does on these values. -/
def fmtTenths (q : Rat) : String :=
  let t : Int := (q * 10).num / ((q * 10).den : Int)
  toString (t / 10) ++ "." ++ toString (t % 10)

/-- The repeated CloudWatch unit-conversion note appended to every
throughput field of the result. -/
def cloudwatchNote : String :=
  " (Note: CloudWatch metrics may be in bytes; ensure proper conversion between bytes and megabytes)"

/-- Source lines 313-317: the broker-count branch for the replication
factor, before the express override. -/
def replication_factor_branch (number_of_brokers : Int) : Int :=
  if RECOMMENDED_REPLICATION_FACTOR ≤ number_of_brokers then
    RECOMMENDED_REPLICATION_FACTOR
  else number_of_brokers

/-- Source lines 318-322: the broker-count branch for the minimum
in-sync replicas (never overridden). -/
def min_insync_replicas_branch (number_of_brokers : Int) : Int :=
  if RECOMMENDED_REPLICATION_FACTOR ≤ number_of_brokers then
    RECOMMENDED_MIN_INSYNC_REPLICAS
  else number_of_brokers

/-- Source line 325: `instance_type.startswith('express.')`. -/
def is_express_cluster (instance_type : String) : Bool :=
  strStartsWith instance_type "express."

/-- Source lines 324-329: the express override applied to the
broker-count branch of the replication factor. -/
def effective_replication_factor (instance_type : String) (number_of_brokers : Int) : Int :=
  if is_express_cluster instance_type then 3
  else replication_factor_branch number_of_brokers

/-- The dict returned by `get_cluster_best_practices` on success
(source lines 331-356), one field per dict key in source order. String
fields hold the f-string values the source builds. -/
structure ClusterBestPractices where
  instance_type_echo : String
  number_of_brokers_echo : String
  vCPU_per_broker : Nat
  memory_gb_per_broker : String
  network_bandwidth_gbps_per_broker : String
  ingress_throughput_recommended_mbps : String
  ingress_throughput_max_mbps : String
  egress_throughput_recommended_mbps : String
  egress_throughput_max_mbps : String
  recommended_partitions_per_broker : Nat
  max_partitions_per_broker : String
  recommended_max_partitions_per_cluster : Int
  max_partitions_per_cluster : Int
  cpu_utilization_guidelines : String
  disk_utilization_guidelines : String
  replication_factor_rendered : String
  minimum_in_sync_replicas : Int
  under_replicated_partitions_tolerance : Int
  leader_imbalance_tolerance_percent : Int
  deriving DecidableEq, Repr

/-- The success branch of `get_cluster_best_practices` (source lines
309-356): derived values and assembly of the returned dict for a spec
row already retrieved from the table. -/
def recommendation (instance_type : String) (specs : InstanceSpec)
    (number_of_brokers : Int) : ClusterBestPractices :=
  let recommended_cluster_partitions : Int :=
    (specs.partitionsPerBrokerRecommended : Int) * number_of_brokers
  let max_cluster_partitions : Int :=
    (specs.partitionsPerBrokerMax : Int) * number_of_brokers
  let replication_factor : Int :=
    effective_replication_factor instance_type number_of_brokers
  let min_insync_replicas : Int := min_insync_replicas_branch number_of_brokers
  { instance_type_echo := instance_type ++ " (provided as input)"
  , number_of_brokers_echo := toString number_of_brokers ++ " (provided as input)"
  , vCPU_per_broker := specs.vCPU
  , memory_gb_per_broker := toString specs.memoryGB ++ " (available on the host)"
  , network_bandwidth_gbps_per_broker :=
      fmtTenths specs.networkBandwidthGbps ++ " (available on the host)"
  , ingress_throughput_recommended_mbps :=
      fmtTenths specs.ingressRecommendedMBps ++ cloudwatchNote
  , ingress_throughput_max_mbps := fmtTenths specs.ingressMaxMBps ++ cloudwatchNote
  , egress_throughput_recommended_mbps :=
      fmtTenths specs.egressRecommendedMBps ++ cloudwatchNote
  , egress_throughput_max_mbps := fmtTenths specs.egressMaxMBps ++ cloudwatchNote
  , recommended_partitions_per_broker := specs.partitionsPerBrokerRecommended
  , max_partitions_per_broker :=
      toString specs.partitionsPerBrokerMax ++
        " (Note: Each partition should be 3-way replicated. For example, 1000 total partitions with three brokers will mean each broker has 1000 partitions.)"
  , recommended_max_partitions_per_cluster := recommended_cluster_partitions
  , max_partitions_per_cluster := max_cluster_partitions
  , cpu_utilization_guidelines :=
      "Keep below " ++ toString RECOMMENDED_CPU_UTILIZATION_PERCENT ++
        "% regularly; never exceed " ++ toString MAX_CPU_UTILIZATION_PERCENT ++ "%."
  , disk_utilization_guidelines :=
      "Warning at " ++ toString STORAGE_UTILIZATION_WARNING_PERCENT ++
        "%, critical at " ++ toString STORAGE_UTILIZATION_CRITICAL_PERCENT ++ "%."
  , replication_factor_rendered :=
      toString replication_factor ++
        (if is_express_cluster instance_type then
          " (Note: For express clusters, replication factor should always be 3)"
        else " (recommended)")
  , minimum_in_sync_replicas := min_insync_replicas
  , under_replicated_partitions_tolerance := UNDER_REPLICATED_PARTITIONS_TOLERANCE
  , leader_imbalance_tolerance_percent := LEADER_IMBALANCE_TOLERANCE_PERCENT
  }

/-- Source lines 296-356: `get_cluster_best_practices`. Returns the
structured error dict when the instance type is not a table key
(line 306-307), otherwise the assembled recommendation dict. -/
def get_cluster_best_practices (instance_type : String)
    (number_of_brokers : Int) : Except String ClusterBestPractices :=
  match INSTANCE_SPECS.lookup instance_type with
  | none =>
      .error ("Instance type \x27" ++ instance_type ++
        "\x27 is not supported or recognized.")
  | some specs => .ok (recommendation instance_type specs number_of_brokers)

/-- The `cpu_utilization` threshold object of the catalog document. -/
structure CpuUtilizationThreshold where
  recommended_max : Int
  critical_max : Int
  description : String
  deriving DecidableEq, Repr

/-- The `disk_utilization` threshold object of the catalog document. -/
structure DiskUtilizationThreshold where
  warning : Int
  critical : Int
  description : String
  deriving DecidableEq, Repr

/-- The `replication` threshold object of the catalog document. -/
structure ReplicationThreshold where
  recommended_factor : Int
  min_insync_replicas : Int
  description : String
  deriving DecidableEq, Repr

/-- The `under_replicated_partitions` threshold object of the catalog document. -/
structure UnderReplicatedThreshold where
  tolerance : Int
  description : String
  deriving DecidableEq, Repr

/-- The `leader_imbalance` threshold object of the catalog document. -/
structure LeaderImbalanceThreshold where
  tolerance_percent : Int
  description : String
  deriving DecidableEq, Repr

/-- The `thresholds` object of the catalog document (source lines 387-411). -/
structure Thresholds where
  cpu_utilization : CpuUtilizationThreshold
  disk_utilization : DiskUtilizationThreshold
  replication : ReplicationThreshold
  under_replicated_partitions : UnderReplicatedThreshold
  leader_imbalance : LeaderImbalanceThreshold
  deriving DecidableEq, Repr

/-- The `instance_categories` object of the catalog document
(source lines 413-416). -/
structure InstanceCategories where
  standard : List String
  express : List String
  deriving DecidableEq, Repr

/-- The full `best_practices` object assembled by the `msk_best_practices`
resource (source lines 386-417), before JSON serialization. -/
structure BestPracticesDoc where
  thresholds : Thresholds
  instance_specs : List (String × InstanceSpec)
  instance_categories : InstanceCategories
  deriving DecidableEq, Repr

/-- The document returned by the `msk_best_practices` resource
(`catalogAllBestPractices`): threshold constants with rendered
descriptions, the full table, and the key partition by identifier
category. The two category lists are the source's list comprehensions
over `INSTANCE_SPECS.keys()`. -/
def msk_best_practices : BestPracticesDoc :=
  { thresholds :=
    { cpu_utilization :=
      { recommended_max := RECOMMENDED_CPU_UTILIZATION_PERCENT
      , critical_max := MAX_CPU_UTILIZATION_PERCENT
      , description :=
          "Keep below " ++ toString RECOMMENDED_CPU_UTILIZATION_PERCENT ++
            "% regularly; never exceed " ++ toString MAX_CPU_UTILIZATION_PERCENT ++ "%."
      }
    , disk_utilization :=
      { warning := STORAGE_UTILIZATION_WARNING_PERCENT
      , critical := STORAGE_UTILIZATION_CRITICAL_PERCENT
      , description :=
          "Warning at " ++ toString STORAGE_UTILIZATION_WARNING_PERCENT ++
            "%, critical at " ++ toString STORAGE_UTILIZATION_CRITICAL_PERCENT ++ "%."
      }
    , replication :=
      { recommended_factor := RECOMMENDED_REPLICATION_FACTOR
      , min_insync_replicas := RECOMMENDED_MIN_INSYNC_REPLICAS
      , description := "For optimal resilience, use replication factor 3 with minimum ISR of 2."
      }
    , under_replicated_partitions :=
      { tolerance := UNDER_REPLICATED_PARTITIONS_TOLERANCE
      , description := "Any deviation from zero indicates potential replication health issues."
      }
    , leader_imbalance :=
      { tolerance_percent := LEADER_IMBALANCE_TOLERANCE_PERCENT
      , description :=
          "Maintain leader distribution within " ++
            toString LEADER_IMBALANCE_TOLERANCE_PERCENT ++
            "% balance to avoid performance bottlenecks."
      }
    }
  , instance_specs := INSTANCE_SPECS
  , instance_categories :=
    { standard := INSTANCE_SPECS_keys.filter (fun key => strStartsWith key "kafka.")
    , express := INSTANCE_SPECS_keys.filter (fun key => strStartsWith key "express.")
    }
  }

/-- Every key of the table can be looked up successfully. -/
theorem lookup_isSome_of_mem_keys :
    ∀ k ∈ INSTANCE_SPECS_keys, (INSTANCE_SPECS.lookup k).isSome = true := by
  decide

/-- Every key of the table carries one of the two category markers. -/
theorem keys_category_covered : ∀ k ∈ INSTANCE_SPECS_keys,
    (strStartsWith k "kafka." || strStartsWith k "express.") = true := by
  decide

/-- The table keys are pairwise distinct. -/
theorem keys_nodup : INSTANCE_SPECS_keys.Nodup := by decide

/-- When the lookup succeeds, `get_cluster_best_practices` takes the
success branch and returns the assembled recommendation. -/
theorem get_eq_ok (it : String) (s : InstanceSpec) (n : Int)
    (hs : INSTANCE_SPECS.lookup it = some s) :
    get_cluster_best_practices it n = .ok (recommendation it s n) := by
  unfold get_cluster_best_practices
  rw [hs]

/-- C1: for every broker count and every table instance type whose
identifier starts with "express.", the returned replication factor is
forced to 3 regardless of the broker-count branch, while the minimum
in-sync replicas value remains the one computed by the broker-count
branch. -/
theorem express_override_forces_rf_three (it : String) (s : InstanceSpec) (n : Int)
    (hs : INSTANCE_SPECS.lookup it = some s)
    (hx : strStartsWith it "express." = true) :
    get_cluster_best_practices it n = .ok (recommendation it s n) ∧
    effective_replication_factor it n = 3 ∧
    (recommendation it s n).replication_factor_rendered =
      "3 (Note: For express clusters, replication factor should always be 3)" ∧
    (recommendation it s n).minimum_in_sync_replicas = min_insync_replicas_branch n := by
  have hrf : effective_replication_factor it n = 3 := by
    simp [effective_replication_factor, is_express_cluster, hx]
  refine ⟨get_eq_ok it s n hs, hrf, ?_, rfl⟩
  show toString (effective_replication_factor it n) ++
      (if is_express_cluster it then
        " (Note: For express clusters, replication factor should always be 3)"
      else " (recommended)") = _
  have hx2 : is_express_cluster it = true := hx
  rw [hrf, hx2]
  decide

/-- C1 witness: express.m7g.large with 1 broker gets replication factor 3
while the minimum in-sync replicas stays at the small-cluster value 1. -/
theorem express_override_forces_rf_three_witness :
    get_cluster_best_practices "express.m7g.large" 1 =
      .ok (recommendation "express.m7g.large"
        ⟨2, 8, 12.5, 15.6, 23.4, 31.2, 58.5, 1000, 1500⟩ 1) ∧
    effective_replication_factor "express.m7g.large" 1 = 3 ∧
    (recommendation "express.m7g.large"
      ⟨2, 8, 12.5, 15.6, 23.4, 31.2, 58.5, 1000, 1500⟩ 1).replication_factor_rendered =
      "3 (Note: For express clusters, replication factor should always be 3)" ∧
    (recommendation "express.m7g.large"
      ⟨2, 8, 12.5, 15.6, 23.4, 31.2, 58.5, 1000, 1500⟩ 1).minimum_in_sync_replicas =
      min_insync_replicas_branch 1 :=
  express_override_forces_rf_three "express.m7g.large"
    ⟨2, 8, 12.5, 15.6, 23.4, 31.2, 58.5, 1000, 1500⟩ 1 (by rfl) (by decide)

/-- C2: for every table instance type and broker count n, the broker-count
branch yields replication factor 3 and minimum in-sync replicas 2 when
n >= 3, and both equal to n otherwise (before any express override); the
returned minimum in-sync replicas is the branch value. -/
theorem broker_count_branch_values (it : String) (s : InstanceSpec) (n : Int)
    (hs : INSTANCE_SPECS.lookup it = some s) :
    get_cluster_best_practices it n = .ok (recommendation it s n) ∧
    (recommendation it s n).minimum_in_sync_replicas = min_insync_replicas_branch n ∧
    (3 ≤ n → replication_factor_branch n = 3 ∧ min_insync_replicas_branch n = 2) ∧
    (n < 3 → replication_factor_branch n = n ∧ min_insync_replicas_branch n = n) := by
  refine ⟨get_eq_ok it s n hs, rfl, ?_, ?_⟩
  · intro h
    constructor <;>
      simp [replication_factor_branch, min_insync_replicas_branch,
        RECOMMENDED_REPLICATION_FACTOR, RECOMMENDED_MIN_INSYNC_REPLICAS, h]
  · intro h
    constructor <;>
      simp [replication_factor_branch, min_insync_replicas_branch,
        RECOMMENDED_REPLICATION_FACTOR, RECOMMENDED_MIN_INSYNC_REPLICAS] <;>
      omega

/-- C2 witness: kafka.t3.small with 2 brokers takes the small-cluster
branch, giving replication factor = minimum in-sync replicas = 2. -/
theorem broker_count_branch_values_witness :
    get_cluster_best_practices "kafka.t3.small" 2 =
      .ok (recommendation "kafka.t3.small"
        ⟨2, 2, 5.0, 4.8, 7.2, 9.6, 18.0, 300, 300⟩ 2) ∧
    (recommendation "kafka.t3.small"
      ⟨2, 2, 5.0, 4.8, 7.2, 9.6, 18.0, 300, 300⟩ 2).minimum_in_sync_replicas =
      min_insync_replicas_branch 2 ∧
    (3 ≤ (2 : Int) → replication_factor_branch 2 = 3 ∧ min_insync_replicas_branch 2 = 2) ∧
    ((2 : Int) < 3 → replication_factor_branch 2 = 2 ∧ min_insync_replicas_branch 2 = 2) :=
  broker_count_branch_values "kafka.t3.small"
    ⟨2, 2, 5.0, 4.8, 7.2, 9.6, 18.0, 300, 300⟩ 2 (by rfl)

/-- C3: for every table instance type and broker count n, the returned
recommended cluster partition ceiling is the per-broker recommended
partitions times n, and the max ceiling is the per-broker max times n. -/
theorem cluster_partition_ceilings (it : String) (s : InstanceSpec) (n : Int)
    (hs : INSTANCE_SPECS.lookup it = some s) :
    get_cluster_best_practices it n = .ok (recommendation it s n) ∧
    (recommendation it s n).recommended_max_partitions_per_cluster =
      (s.partitionsPerBrokerRecommended : Int) * n ∧
    (recommendation it s n).max_partitions_per_cluster =
      (s.partitionsPerBrokerMax : Int) * n :=
  ⟨get_eq_ok it s n hs, rfl, rfl⟩

/-- C3 witness: kafka.m5.large with 3 brokers gets ceilings 3000 and 4500,
replication factor 3 annotated "(recommended)", minimum in-sync replicas 2. -/
theorem cluster_partition_ceilings_witness :
    (get_cluster_best_practices "kafka.m5.large" 3 =
      .ok (recommendation "kafka.m5.large"
        ⟨2, 8, 10.0, 4.8, 7.2, 9.6, 18.0, 1000, 1500⟩ 3) ∧
    (recommendation "kafka.m5.large"
      ⟨2, 8, 10.0, 4.8, 7.2, 9.6, 18.0, 1000, 1500⟩ 3).recommended_max_partitions_per_cluster =
      ((1000 : Nat) : Int) * 3 ∧
    (recommendation "kafka.m5.large"
      ⟨2, 8, 10.0, 4.8, 7.2, 9.6, 18.0, 1000, 1500⟩ 3).max_partitions_per_cluster =
      ((1500 : Nat) : Int) * 3) ∧
    (recommendation "kafka.m5.large"
      ⟨2, 8, 10.0, 4.8, 7.2, 9.6, 18.0, 1000, 1500⟩ 3).recommended_max_partitions_per_cluster =
      3000 ∧
    (recommendation "kafka.m5.large"
      ⟨2, 8, 10.0, 4.8, 7.2, 9.6, 18.0, 1000, 1500⟩ 3).max_partitions_per_cluster = 4500 ∧
    (recommendation "kafka.m5.large"
      ⟨2, 8, 10.0, 4.8, 7.2, 9.6, 18.0, 1000, 1500⟩ 3).minimum_in_sync_replicas = 2 ∧
    (recommendation "kafka.m5.large"
      ⟨2, 8, 10.0, 4.8, 7.2, 9.6, 18.0, 1000, 1500⟩ 3).replication_factor_rendered =
      "3 (recommended)" :=
  ⟨cluster_partition_ceilings "kafka.m5.large"
      ⟨2, 8, 10.0, 4.8, 7.2, 9.6, 18.0, 1000, 1500⟩ 3 (by rfl),
    by decide, by decide, by decide, by decide⟩

/-- C4: for every instance type string absent from the table and every
broker count, the function returns the structured error variant, and the
error message contains the offending identifier as a substring. -/
theorem unsupported_instance_type_error (it : String) (n : Int)
    (h : INSTANCE_SPECS.lookup it = none) :
    ∃ msg, get_cluster_best_practices it n = .error msg ∧
      ∃ pre post, msg = pre ++ it ++ post := by
  refine ⟨"Instance type \x27" ++ it ++ "\x27 is not supported or recognized.", ?_,
    "Instance type \x27", "\x27 is not supported or recognized.", rfl⟩
  unfold get_cluster_best_practices
  rw [h]

/-- C4 witness: the call with "not-a-real-type" and 5 brokers returns an
error result whose message includes the literal string "not-a-real-type". -/
theorem unsupported_instance_type_error_witness :
    ∃ msg, get_cluster_best_practices "not-a-real-type" 5 = .error msg ∧
      ∃ pre post, msg = pre ++ "not-a-real-type" ++ post :=
  unsupported_instance_type_error "not-a-real-type" 5 (by rfl)

/-- C5: for every identifier that is a key of the table and every positive
broker count, the function takes the success branch and returns a
well-formed recommendation (total, never the error variant). -/
theorem table_lookup_total (it : String) (n : Int)
    (hit : it ∈ INSTANCE_SPECS_keys) (hn : 0 < n) :
    ∃ r, get_cluster_best_practices it n = .ok r := by
  have h := lookup_isSome_of_mem_keys it hit
  obtain ⟨s, hs⟩ := Option.isSome_iff_exists.mp h
  exact ⟨recommendation it s n, get_eq_ok it s n hs⟩

/-- C5 witness: kafka.t3.small with 1 broker yields a success result. -/
theorem table_lookup_total_witness :
    ∃ r, get_cluster_best_practices "kafka.t3.small" 1 = .ok r :=
  table_lookup_total "kafka.t3.small" 1 (by decide) (by decide)

/-- C6: in the catalog document, the "standard" category list contains
exactly the table keys starting with "kafka." and the "express" list
exactly those starting with "express."; the deduplicated union of the two
lists equals the full key set of the table. -/
theorem instance_categories_partition_keys :
    (∀ k, k ∈ msk_best_practices.instance_categories.standard ↔
      (k ∈ INSTANCE_SPECS_keys ∧ strStartsWith k "kafka." = true)) ∧
    (∀ k, k ∈ msk_best_practices.instance_categories.express ↔
      (k ∈ INSTANCE_SPECS_keys ∧ strStartsWith k "express." = true)) ∧
    (∀ k, (k ∈ msk_best_practices.instance_categories.standard ∨
        k ∈ msk_best_practices.instance_categories.express) ↔
      k ∈ INSTANCE_SPECS_keys) ∧
    msk_best_practices.instance_categories.standard.Nodup ∧
    msk_best_practices.instance_categories.express.Nodup := by
  have hstd : msk_best_practices.instance_categories.standard =
      INSTANCE_SPECS_keys.filter (fun key => strStartsWith key "kafka.") := rfl
  have hexp : msk_best_practices.instance_categories.express =
      INSTANCE_SPECS_keys.filter (fun key => strStartsWith key "express.") := rfl
  refine ⟨?_, ?_, ?_, ?_, ?_⟩
  · intro k; rw [hstd]; exact List.mem_filter
  · intro k; rw [hexp]; exact List.mem_filter
  · intro k
    rw [hstd, hexp]
    constructor
    · rintro (hk | hk)
      · exact (List.mem_filter.mp hk).1
      · exact (List.mem_filter.mp hk).1
    · intro hk
      rcases Bool.or_eq_true_iff.mp (keys_category_covered k hk) with h | h
      · exact Or.inl (List.mem_filter.mpr ⟨hk, h⟩)
      · exact Or.inr (List.mem_filter.mpr ⟨hk, h⟩)
  · rw [hstd]; exact keys_nodup.filter _
  · rw [hexp]; exact keys_nodup.filter _

/-- C7: the function is deterministic and stateless; two calls with
identical instance type and broker count return identical values. -/
theorem get_cluster_best_practices_deterministic (it₁ it₂ : String) (n₁ n₂ : Int)
    (hit : it₁ = it₂) (hn : n₁ = n₂) :
    get_cluster_best_practices it₁ n₁ = get_cluster_best_practices it₂ n₂ := by
  rw [hit, hn]

/-- C7 witness: two calls with kafka.m7g.xlarge and 6 brokers agree. -/
theorem get_cluster_best_practices_deterministic_witness :
    get_cluster_best_practices "kafka.m7g.xlarge" 6 =
      get_cluster_best_practices "kafka.m7g.xlarge" 6 :=
  get_cluster_best_practices_deterministic "kafka.m7g.xlarge" "kafka.m7g.xlarge" 6 6 rfl rfl

/-- C8: for a fixed table instance type, the two cluster partition
ceilings scale linearly in the broker count (multiplying the count by k
multiplies both by k) and are monotonically non-decreasing in the broker
count for non-negative counts. -/
theorem partition_ceilings_linear_monotone (it : String) (s : InstanceSpec)
    (k n m m' : Int) (hs : INSTANCE_SPECS.lookup it = some s)
    (hm : 0 ≤ m) (hmm : m ≤ m') :
    get_cluster_best_practices it (k * n) = .ok (recommendation it s (k * n)) ∧
    (recommendation it s (k * n)).recommended_max_partitions_per_cluster =
      k * (recommendation it s n).recommended_max_partitions_per_cluster ∧
    (recommendation it s (k * n)).max_partitions_per_cluster =
      k * (recommendation it s n).max_partitions_per_cluster ∧
    (recommendation it s m).recommended_max_partitions_per_cluster ≤
      (recommendation it s m').recommended_max_partitions_per_cluster ∧
    (recommendation it s m).max_partitions_per_cluster ≤
      (recommendation it s m').max_partitions_per_cluster := by
  refine ⟨get_eq_ok it s (k * n) hs, ?_, ?_, ?_, ?_⟩
  · show (s.partitionsPerBrokerRecommended : Int) * (k * n) =
      k * ((s.partitionsPerBrokerRecommended : Int) * n)
    ring
  · show (s.partitionsPerBrokerMax : Int) * (k * n) =
      k * ((s.partitionsPerBrokerMax : Int) * n)
    ring
  · show (s.partitionsPerBrokerRecommended : Int) * m ≤
      (s.partitionsPerBrokerRecommended : Int) * m'
    exact mul_le_mul_of_nonneg_left hmm (by positivity)
  · show (s.partitionsPerBrokerMax : Int) * m ≤ (s.partitionsPerBrokerMax : Int) * m'
    exact mul_le_mul_of_nonneg_left hmm (by positivity)

/-- C8 witness: for express.m7g.2xlarge, doubling 3 brokers to 6 doubles
both ceilings, and the ceilings at 3 brokers are at most those at 4. -/
theorem partition_ceilings_linear_monotone_witness :
    get_cluster_best_practices "express.m7g.2xlarge" (2 * 3) =
      .ok (recommendation "express.m7g.2xlarge"
        ⟨8, 32, 15.0, 62.5, 93.7, 125.0, 234.2, 2000, 3000⟩ (2 * 3)) ∧
    (recommendation "express.m7g.2xlarge"
      ⟨8, 32, 15.0, 62.5, 93.7, 125.0, 234.2, 2000, 3000⟩ (2 * 3)).recommended_max_partitions_per_cluster =
      2 * (recommendation "express.m7g.2xlarge"
        ⟨8, 32, 15.0, 62.5, 93.7, 125.0, 234.2, 2000, 3000⟩ 3).recommended_max_partitions_per_cluster ∧
    (recommendation "express.m7g.2xlarge"
      ⟨8, 32, 15.0, 62.5, 93.7, 125.0, 234.2, 2000, 3000⟩ (2 * 3)).max_partitions_per_cluster =
      2 * (recommendation "express.m7g.2xlarge"
        ⟨8, 32, 15.0, 62.5, 93.7, 125.0, 234.2, 2000, 3000⟩ 3).max_partitions_per_cluster ∧
    (recommendation "express.m7g.2xlarge"
      ⟨8, 32, 15.0, 62.5, 93.7, 125.0, 234.2, 2000, 3000⟩ 3).recommended_max_partitions_per_cluster ≤
      (recommendation "express.m7g.2xlarge"
        ⟨8, 32, 15.0, 62.5, 93.7, 125.0, 234.2, 2000, 3000⟩ 4).recommended_max_partitions_per_cluster ∧
    (recommendation "express.m7g.2xlarge"
      ⟨8, 32, 15.0, 62.5, 93.7, 125.0, 234.2, 2000, 3000⟩ 3).max_partitions_per_cluster ≤
      (recommendation "express.m7g.2xlarge"
        ⟨8, 32, 15.0, 62.5, 93.7, 125.0, 234.2, 2000, 3000⟩ 4).max_partitions_per_cluster :=
  partition_ceilings_linear_monotone "express.m7g.2xlarge"
    ⟨8, 32, 15.0, 62.5, 93.7, 125.0, 234.2, 2000, 3000⟩ 2 3 3 4 (by rfl)
    (by decide) (by decide)

/-- C9: no lower bound on the broker count is enforced: for table
instance types and a zero or negative broker count the function still
takes the success branch; both partition ceilings are non-positive, and
for non-express types the replication factor and minimum in-sync
replicas both equal the non-positive broker count. -/
theorem no_broker_count_lower_bound (it : String) (s : InstanceSpec) (n : Int)
    (hs : INSTANCE_SPECS.lookup it = some s) (hn : n ≤ 0) :
    get_cluster_best_practices it n = .ok (recommendation it s n) ∧
    (recommendation it s n).recommended_max_partitions_per_cluster ≤ 0 ∧
    (recommendation it s n).max_partitions_per_cluster ≤ 0 ∧
    (is_express_cluster it = false →
      effective_replication_factor it n = n ∧
      (recommendation it s n).minimum_in_sync_replicas = n ∧
      (recommendation it s n).replication_factor_rendered =
        toString n ++ " (recommended)") := by
  have hb : replication_factor_branch n = n := by
    unfold replication_factor_branch RECOMMENDED_REPLICATION_FACTOR
    rw [if_neg (by omega)]
  have hmis : min_insync_replicas_branch n = n := by
    unfold min_insync_replicas_branch RECOMMENDED_REPLICATION_FACTOR
    rw [if_neg (by omega)]
  refine ⟨get_eq_ok it s n hs, ?_, ?_, ?_⟩
  · show (s.partitionsPerBrokerRecommended : Int) * n ≤ 0
    exact mul_nonpos_of_nonneg_of_nonpos (by positivity) hn
  · show (s.partitionsPerBrokerMax : Int) * n ≤ 0
    exact mul_nonpos_of_nonneg_of_nonpos (by positivity) hn
  · intro hx
    have hrf : effective_replication_factor it n = n := by
      unfold effective_replication_factor
      rw [hx]
      exact hb
    refine ⟨hrf, hmis, ?_⟩
    show toString (effective_replication_factor it n) ++
        (if is_express_cluster it then
          " (Note: For express clusters, replication factor should always be 3)"
        else " (recommended)") = toString n ++ " (recommended)"
    rw [hrf, hx]
    simp

/-- C9 witness: kafka.m5.xlarge with -2 brokers still succeeds, with both
ceilings non-positive and replication factor = minimum in-sync
replicas = -2. -/
theorem no_broker_count_lower_bound_witness :
    get_cluster_best_practices "kafka.m5.xlarge" (-2) =
      .ok (recommendation "kafka.m5.xlarge"
        ⟨4, 16, 10.0, 9.6, 14.4, 19.2, 36.0, 1000, 1500⟩ (-2)) ∧
    (recommendation "kafka.m5.xlarge"
      ⟨4, 16, 10.0, 9.6, 14.4, 19.2, 36.0, 1000, 1500⟩ (-2)).recommended_max_partitions_per_cluster ≤ 0 ∧
    (recommendation "kafka.m5.xlarge"
      ⟨4, 16, 10.0, 9.6, 14.4, 19.2, 36.0, 1000, 1500⟩ (-2)).max_partitions_per_cluster ≤ 0 ∧
    (is_express_cluster "kafka.m5.xlarge" = false →
      effective_replication_factor "kafka.m5.xlarge" (-2) = -2 ∧
      (recommendation "kafka.m5.xlarge"
        ⟨4, 16, 10.0, 9.6, 14.4, 19.2, 36.0, 1000, 1500⟩ (-2)).minimum_in_sync_replicas = -2 ∧
      (recommendation "kafka.m5.xlarge"
        ⟨4, 16, 10.0, 9.6, 14.4, 19.2, 36.0, 1000, 1500⟩ (-2)).replication_factor_rendered =
        toString (-2 : Int) ++ " (recommended)") :=
  no_broker_count_lower_bound "kafka.m5.xlarge"
    ⟨4, 16, 10.0, 9.6, 14.4, 19.2, 36.0, 1000, 1500⟩ (-2) (by rfl) (by decide)

/-- C10: invariant of every successful result: the returned minimum
in-sync replicas is at most the effective replication factor, for every
table instance type and every integer broker count, including under the
express override. -/
theorem min_insync_le_replication_factor (it : String) (s : InstanceSpec) (n : Int)
    (hs : INSTANCE_SPECS.lookup it = some s) :
    get_cluster_best_practices it n = .ok (recommendation it s n) ∧
    (recommendation it s n).minimum_in_sync_replicas ≤
      effective_replication_factor it n := by
  refine ⟨get_eq_ok it s n hs, ?_⟩
  show min_insync_replicas_branch n ≤ effective_replication_factor it n
  unfold min_insync_replicas_branch effective_replication_factor
    replication_factor_branch RECOMMENDED_REPLICATION_FACTOR
    RECOMMENDED_MIN_INSYNC_REPLICAS
  by_cases hx : is_express_cluster it = true
  · rw [if_pos hx]
    split <;> omega
  · rw [if_neg hx]
    split <;> omega

/-- C10 witness: express.m7g.xlarge with 1 broker: the returned minimum
in-sync replicas (1) is at most the forced replication factor (3). -/
theorem min_insync_le_replication_factor_witness :
    get_cluster_best_practices "express.m7g.xlarge" 1 =
      .ok (recommendation "express.m7g.xlarge"
        ⟨4, 16, 15.0, 31.2, 46.8, 62.5, 117.0, 1000, 1500⟩ 1) ∧
    (recommendation "express.m7g.xlarge"
      ⟨4, 16, 15.0, 31.2, 46.8, 62.5, 117.0, 1000, 1500⟩ 1).minimum_in_sync_replicas ≤
      effective_replication_factor "express.m7g.xlarge" 1 :=
  min_insync_le_replication_factor "express.m7g.xlarge"
    ⟨4, 16, 15.0, 31.2, 46.8, 62.5, 117.0, 1000, 1500⟩ 1 (by rfl)
